import Mathlib

/-!
Verification of the notebook code in amazon-bedrock-agentcore-samples:
the streaming agent entrypoint, the boto3 SSE parsing cell, the
status-polling loop, the browser-use cells, and the code-interpreter
notebook (call_tool, the write-file cell, and the operation pipeline).
Python dicts with string keys and string values are embedded as
association lists; a generator is embedded as the list of values it
yields; an external call that may raise is embedded as an `Option`
holding the exception it raises, `none` meaning success.
-/

/-- Events produced by agent.stream_async: dicts with string keys, embedded
as association lists looked up front to back. -/
abbrev AgentEvent := List (String × String)

/-- Embeds the Python expression d.get(k) (and the pair of the test k in d
with the access d[k]): the value at the first matching key, if any. -/
def getKey (k : String) : List (String × String) → Option String
  | [] => none
  | (k2, v) :: rest => if k2 = k then some v else getKey k rest

/-- Values yielded by the streaming entrypoint: either a bare data string
(event["data"]) or the error dict built in the except clause, whose two
fields are its "error" and "type" entries. -/
inductive Chunk where
  | data (s : String)
  | errorObj (error : String) (ty : String)
deriving Repr, DecidableEq

/-- Faithful translation of the generator body of
strands_agent_bedrock_streaming (strands_claude_streaming.py): iterate the
events of agent.stream_async(user_input) and yield event["data"] whenever
the key "data" is present; if the stream raises an exception with message
m after producing the listed events, the except clause yields the single
error dict with error = m and type = "stream_error" and the generator ends
normally (the exception is not re-raised, hence the function is total). -/
def streamChunks : List AgentEvent → Option String → List Chunk
  | [], none => []
  | [], some m => [Chunk.errorObj m "stream_error"]
  | e :: rest, exn =>
    match getKey "data" e with
    | some d => Chunk.data d :: streamChunks rest exn
    | none => streamChunks rest exn

/-- The error dicts printed by the except clause of the streaming
entrypoint: exactly one, the error_response it also yields, when the
stream raised; nothing otherwise. -/
def printedErrorResponses : Option String → List Chunk
  | none => []
  | some m => [Chunk.errorObj m "stream_error"]

/-- Faithful translation of the whole entrypoint: user_input is
payload.get("prompt"); the agent behaviour is a function from that input
to the events it produces and the exception, if any, that ends its
stream. -/
def strands_agent_bedrock_streaming (payload : List (String × String))
    (agent : Option String → List AgentEvent × Option String) : List Chunk :=
  let user_input := getKey "prompt" payload
  streamChunks (agent user_input).1 (agent user_input).2

/-- Claim C1: when the stream raises with message m after producing
`events`, the generator yields every chunk it would have yielded from
those events unchanged, followed by exactly one final error chunk, the
dict with error = m and type = "stream_error", which it also prints; it
then terminates normally (streamChunks is total and the equation shows
the error chunk is last). -/
theorem claim_C1 (events : List AgentEvent) (m : String) :
    streamChunks events (some m)
      = streamChunks events none ++ [Chunk.errorObj m "stream_error"]
    ∧ printedErrorResponses (some m) = [Chunk.errorObj m "stream_error"] := by
  refine ⟨?_, rfl⟩
  induction events with
  | nil => rfl
  | cons e rest ih =>
    simp only [streamChunks]
    cases getKey "data" e <;> simp [ih]

/-- Claim C2: with no exception, the generator yields exactly the
event["data"] values of the events holding the key "data", in order;
events without that key contribute nothing and nothing else is
yielded. -/
theorem claim_C2 (events : List AgentEvent) :
    streamChunks events none
      = events.filterMap (fun e => (getKey "data" e).map Chunk.data) := by
  induction events with
  | nil => rfl
  | cons e rest ih =>
    simp only [streamChunks, List.filterMap_cons]
    cases getKey "data" e <;> simp [ih]

lemma getKey_eq_none_of_not_mem (k : String) (l : List (String × String))
    (h : k ∉ l.map Prod.fst) : getKey k l = none := by
  induction l with
  | nil => rfl
  | cons p rest ih =>
    obtain ⟨k2, v⟩ := p
    simp only [List.map_cons, List.mem_cons] at h
    push_neg at h
    simp only [getKey]
    rw [if_neg (fun hk => h.1 hk.symm), ih h.2]

/-- Claim C9: a payload without the key "prompt" is not rejected:
payload.get("prompt") is None, and the entrypoint simply forwards the
stream the agent produces when invoked with None, with no local
validation and no locally raised exception (the model is a total
function). -/
theorem claim_C9 (payload : List (String × String))
    (agent : Option String → List AgentEvent × Option String)
    (h : "prompt" ∉ payload.map Prod.fst) :
    getKey "prompt" payload = none
    ∧ strands_agent_bedrock_streaming payload agent
        = streamChunks (agent none).1 (agent none).2 := by
  have hg := getKey_eq_none_of_not_mem "prompt" payload h
  refine ⟨hg, ?_⟩
  unfold strands_agent_bedrock_streaming
  rw [hg]

/-- A concrete agent behaviour used to instantiate claim_C9: one event
with a "data" entry and no exception. -/
def c9agent : Option String → List AgentEvent × Option String :=
  fun _ => ([[("data", "hi")]], none)

/-- Witness for claim_C9 at the concrete payload [("foo", "1")]. -/
theorem claim_C9_witness :
    "prompt" ∉ ([("foo", "1")] : List (String × String)).map Prod.fst
    ∧ (getKey "prompt" [("foo", "1")] = none
       ∧ strands_agent_bedrock_streaming [("foo", "1")] c9agent
           = streamChunks (c9agent none).1 (c9agent none).2) :=
  ⟨by decide, claim_C9 [("foo", "1")] c9agent (by decide)⟩

/-- Embeds the Python expression s.replace(a-double-quote, empty): deletes
every double-quote character of the string. -/
def removeQuotes (s : String) : String :=
  String.mk (s.data.filter (fun c => c != '"'))

/-- One iteration of the boto3 SSE loop: a falsy (empty) decoded line is
skipped; a line starting with the six characters of the data marker is
sliced past them, stripped of double quotes (the code applies the
deletion a second time when appending, which changes nothing), and
appended to content; any other line is skipped. -/
def sseStep (content : List String) (line : String) : List String :=
  if line = "" then content
  else if line.startsWith "data: " then
    content ++ [removeQuotes (removeQuotes (line.drop 6))]
  else content

/-- Faithful translation of the boto3 streaming cell loop: content starts
empty and each decoded line of the event stream is fed to sseStep in
arrival order. -/
def sseContent (lines : List String) : List String :=
  lines.foldl sseStep []

/-- Faithful translation of the final line of the boto3 streaming cell:
the collected chunks joined with single spaces. -/
def full_response (lines : List String) : String :=
  String.intercalate " " (sseContent lines)

lemma removeQuotes_idem (s : String) :
    removeQuotes (removeQuotes s) = removeQuotes s := by
  unfold removeQuotes
  simp [List.filter_filter]

lemma sseContent_foldl (lines : List String) (acc : List String) :
    lines.foldl sseStep acc
      = acc ++ (lines.filter fun l => !(l == "") && l.startsWith "data: ").map
          (fun l => removeQuotes (l.drop 6)) := by
  induction lines generalizing acc with
  | nil => simp
  | cons l rest ih =>
    simp only [List.foldl_cons, List.filter_cons]
    by_cases h1 : l = ""
    · subst h1
      simp [sseStep, ih]
    · by_cases h2 : l.startsWith "data: "
      · simp [sseStep, h1, h2, ih, removeQuotes_idem]
      · simp [sseStep, h1, h2, ih]

/-- Claim C3: the boto3 SSE cell collects in content exactly the
non-empty lines starting with the data marker, each with its first six
characters removed and every double quote deleted, in arrival order, and
full_response is those transformed chunks joined with single spaces. -/
theorem claim_C3 (lines : List String) :
    sseContent lines
      = (lines.filter fun l => !(l == "") && l.startsWith "data: ").map
          (fun l => removeQuotes (l.drop 6))
    ∧ full_response lines
      = String.intercalate " "
          ((lines.filter fun l => !(l == "") && l.startsWith "data: ").map
            (fun l => removeQuotes (l.drop 6))) := by
  have h := sseContent_foldl lines []
  exact ⟨h, by rw [full_response, sseContent, h]; simp⟩

/-- One event of the stream of an invoke_code_interpreter response; its
result field is the value at the key "result", of an arbitrary type. -/
structure CIEvent (A : Type) where
  result : A
deriving Repr, DecidableEq

/-- An invoke_code_interpreter response; its stream field is the iterator
at the key "stream", embedded as the list of events it would produce. -/
structure CIResponse (A : Type) where
  stream : List (CIEvent A)
deriving Repr, DecidableEq

/-- Faithful translation of call_tool of
run-commands-using-code-interpreter.ipynb, applied to the response the
external invoke_code_interpreter call returned. dumps stands for the
Python standard-library json.dumps with indent 2, external to the
repository. The for-loop over the stream returns dumps of the result
field of the event in its first iteration, so only the first event is
ever taken from the iterator; with an empty stream the loop body never
runs and the function falls through, returning None. -/
def call_tool {A : Type} (dumps : A → String) (response : CIResponse A) :
    Option String :=
  match response.stream with
  | [] => none
  | event :: _ => some (dumps event.result)

/-- Claim C4: on a response with at least one event, call_tool returns
the indent-2 JSON serialization of the first event result, and its
value does not depend on anything past the first event (no further event
is consumed); on a response with an empty stream it returns None. -/
theorem claim_C4 {A : Type} (dumps : A → String) (e : CIEvent A)
    (rest rest2 : List (CIEvent A)) :
    call_tool dumps ⟨e :: rest⟩ = some (dumps e.result)
    ∧ call_tool dumps ⟨e :: rest⟩ = call_tool dumps ⟨e :: rest2⟩
    ∧ call_tool dumps (⟨[]⟩ : CIResponse A) = none :=
  ⟨rfl, rfl, rfl⟩

/-- The remote operations the code-interpreter notebook issues. -/
inductive CIOp where
  | create_code_interpreter
  | start_code_interpreter_session
  | invoke_code_interpreter (tool_name : String)
  | stop_code_interpreter_session
  | delete_code_interpreter
deriving Repr, DecidableEq

/-- Tests whether an operation is an invoke_code_interpreter call. -/
def isInvoke : CIOp → Bool
  | CIOp.invoke_code_interpreter _ => true
  | _ => false

/-- The sequence of remote control-plane and data-plane operations issued
by the code cells of run-commands-using-code-interpreter.ipynb, in cell
order: create the interpreter, start the session, the six call_tool
invocations (echo, pip install, writeFiles, s3 mb, s3 cp, s3 ls), then
the cleanup cell stopping the session and deleting the interpreter. -/
def ciNotebookTrace : List CIOp :=
  [CIOp.create_code_interpreter,
   CIOp.start_code_interpreter_session,
   CIOp.invoke_code_interpreter "executeCommand",
   CIOp.invoke_code_interpreter "executeCommand",
   CIOp.invoke_code_interpreter "writeFiles",
   CIOp.invoke_code_interpreter "executeCommand",
   CIOp.invoke_code_interpreter "executeCommand",
   CIOp.invoke_code_interpreter "executeCommand",
   CIOp.stop_code_interpreter_session,
   CIOp.delete_code_interpreter]

/-- Claim C5: in the notebook trace, create_code_interpreter comes before
start_code_interpreter_session; every invoke_code_interpreter call comes
after the session start and before the session stop;
stop_code_interpreter_session comes before delete_code_interpreter; and
the deletion is the last operation, so nothing is issued against a
resource after its release step. -/
theorem claim_C5 :
    ciNotebookTrace.findIdx (fun o => decide (o = CIOp.create_code_interpreter))
      < ciNotebookTrace.findIdx
          (fun o => decide (o = CIOp.start_code_interpreter_session))
    ∧ ((List.range ciNotebookTrace.length).all fun n =>
        !(isInvoke (ciNotebookTrace.getD n CIOp.create_code_interpreter))
        || (decide (ciNotebookTrace.findIdx
              (fun o => decide (o = CIOp.start_code_interpreter_session)) < n)
            && decide (n < ciNotebookTrace.findIdx
              (fun o => decide (o = CIOp.stop_code_interpreter_session))))) = true
    ∧ ciNotebookTrace.findIdx
        (fun o => decide (o = CIOp.stop_code_interpreter_session))
      < ciNotebookTrace.findIdx
          (fun o => decide (o = CIOp.delete_code_interpreter))
    ∧ ciNotebookTrace.getLast? = some CIOp.delete_code_interpreter := by
  decide

/-- An exception of the external libraries; msg is what Python str(e)
returns for it. -/
structure Exc where
  msg : String
deriving Repr, DecidableEq

/-- Outcomes of the two external calls inside the try block of
run_browser_task: Agent(...) construction and agent.run(). some e means
the call raises e; none means it succeeds. -/
structure BrowserTaskEnv where
  agentCtor : Option Exc
  agentRun : Option Exc
deriving Repr, DecidableEq

/-- Observable outcome of one run_browser_task call: how many times
agent.run() was invoked, the str(e) text the except clause printed (if
any), the exception propagating out of the call (if any), and the value
the call returns (Python None is none). -/
structure BrowserTaskResult where
  runCalls : Nat
  printedError : Option String
  raised : Option Exc
  returnValue : Option String
deriving Repr, DecidableEq

/-- Faithful translation of run_browser_task of the browser-use notebook:
inside a try block it constructs the Agent and awaits agent.run() once;
the except clause catches every Exception, prints str(e) and falls
through; the function has no return statement, so it returns None on
every path and never re-raises. -/
def run_browser_task (env : BrowserTaskEnv) : BrowserTaskResult :=
  match env.agentCtor with
  | some e =>
    { runCalls := 0, printedError := some e.msg, raised := none,
      returnValue := none }
  | none =>
    match env.agentRun with
    | some e =>
      { runCalls := 1, printedError := some e.msg, raised := none,
        returnValue := none }
    | none =>
      { runCalls := 1, printedError := none, raised := none,
        returnValue := none }

/-- Claim C6: for every behaviour of the external Agent construction and
run, run_browser_task propagates no exception, returns None, invokes
agent.run() at most once, and prints str(e) of the first exception
raised inside its try block (construction pre-empting the run, which is
then never reached). -/
theorem claim_C6 (env : BrowserTaskEnv) :
    (run_browser_task env).raised = none
    ∧ (run_browser_task env).returnValue = none
    ∧ (run_browser_task env).runCalls ≤ 1
    ∧ (run_browser_task env).printedError
        = (env.agentCtor.or env.agentRun).map Exc.msg := by
  obtain ⟨c, r⟩ := env
  cases c <;> cases r <;> simp [run_browser_task, Option.or]

/-- Outcome of the Python open-and-read of the local file in the
write-file cell: success with the file content, a FileNotFoundError, or
any other exception with its message. -/
inductive OpenOutcome where
  | ok (content : String)
  | fileNotFound
  | otherError (msg : String)
deriving Repr, DecidableEq

/-- The messages the write-file cell prints, by shape: the leading
header, the FileNotFoundError message naming the path, the generic
exception message, and the final line showing the writeFiles result. -/
inductive CellMsg where
  | header
  | fileNotFoundMsg (path : String)
  | otherErrorMsg (msg : String)
  | writeFilesResult (resp : Option String)
deriving Repr, DecidableEq

/-- Observable outcome of running the write-file cell: what it printed,
the exception propagating out of the cell (if any), and the
path-and-text file list handed to the external writeFiles call when that
call is reached. -/
structure WriteCellResult where
  printed : List CellMsg
  raised : Option String
  wroteFiles : Option (List (String × String))
deriving Repr, DecidableEq

/-- Faithful translation of the write-file cell of
run-commands-using-code-interpreter.ipynb, where local_file is
"samples/stats.py". The try/except covers only opening and reading the
local file, printing a message on failure; it leaves the name
local_file_content bound only when the read succeeded. After it the cell
unconditionally evaluates files_to_create, whose "text" entry references
local_file_content, so in the exception branches that reference raises a
NameError, which nothing in the cell catches. writeResp stands for the
value the external call_tool("writeFiles", ...) invocation returns. -/
def writeFileCell (openResult : OpenOutcome) (writeResp : Option String) :
    WriteCellResult :=
  let tried : Option String × List CellMsg :=
    match openResult with
    | OpenOutcome.ok content => (some content, [])
    | OpenOutcome.fileNotFound =>
      (none, [CellMsg.fileNotFoundMsg "samples/stats.py"])
    | OpenOutcome.otherError m => (none, [CellMsg.otherErrorMsg m])
  match tried.1 with
  | some content =>
    { printed := CellMsg.header :: tried.2 ++ [CellMsg.writeFilesResult writeResp]
      raised := none
      wroteFiles := some [("stats.py", content)] }
  | none =>
    { printed := CellMsg.header :: tried.2
      raised := some "NameError"
      wroteFiles := none }

/-- Claim C7 evaluated at the failing input: when opening raises
FileNotFoundError, the cell prints its message but then raises an
uncaught NameError while building files_to_create, instead of completing
without propagating an exception as the claim states. -/
theorem claim_C7_eval :
    (writeFileCell OpenOutcome.fileNotFound none).printed
      = [CellMsg.header, CellMsg.fileNotFoundMsg "samples/stats.py"]
    ∧ (writeFileCell OpenOutcome.fileNotFound none).raised = some "NameError" :=
  ⟨rfl, rfl⟩

/-- Faithful translation of the end_status list of the status-polling
cell. -/
def end_status : List String :=
  ["READY", "CREATE_FAILED", "DELETE_FAILED", "UPDATE_FAILED"]

/-- Faithful translation of the while loop of the status-polling cell:
status is the most recent observed status; while it is not in
end_status the loop sleeps, fetches the next status and prints it. rest
is the sequence of statuses later agentcore_runtime.status() calls will
return; printed accumulates what the loop printed; the result none means
the modelled sequence was exhausted while the loop was still running
(the real loop would keep polling). -/
def pollLoop (status : String) (rest : List String) (printed : List String) :
    Option (String × List String) :=
  if status ∈ end_status then some (status, printed)
  else
    match rest with
    | [] => none
    | s :: rest2 => pollLoop s rest2 (printed ++ [s])

/-- Faithful translation of the whole status-polling cell: statuses is
the sequence of statuses returned by the successive status() calls, the
first being the call made before the loop (which is never printed). -/
def statusPollCell (statuses : List String) : Option (String × List String) :=
  match statuses with
  | [] => none
  | s :: rest => pollLoop s rest []

lemma pollLoop_spec (rest : List String) :
    ∀ (status : String) (acc : List String) (t : String),
      (status :: rest).find? (fun s => decide (s ∈ end_status)) = some t →
      pollLoop status rest acc
        = some (t, acc
            ++ (((status :: rest).takeWhile fun s => !decide (s ∈ end_status))
                ++ [t]).drop 1) := by
  induction rest with
  | nil =>
    intro status acc t h
    by_cases hc : status ∈ end_status
    · rw [List.find?_cons_of_pos _ (by simp [hc])] at h
      cases h
      rw [pollLoop, if_pos hc, List.takeWhile_cons_of_neg (by simp [hc])]
      simp
    · rw [List.find?_cons_of_neg _ (by simp [hc])] at h
      simp [List.find?] at h
  | cons s2 rest2 ih =>
    intro status acc t h
    by_cases hc : status ∈ end_status
    · rw [List.find?_cons_of_pos _ (by simp [hc])] at h
      cases h
      rw [pollLoop, if_pos hc, List.takeWhile_cons_of_neg (by simp [hc])]
      simp
    · rw [List.find?_cons_of_neg _ (by simp [hc])] at h
      rw [pollLoop, if_neg hc]
      rw [List.takeWhile_cons_of_pos (by simp [hc])]
      rw [ih s2 (acc ++ [s2]) t h]
      by_cases hc2 : s2 ∈ end_status
      · rw [List.find?_cons_of_pos _ (by simp [hc2])] at h
        cases h
        rw [List.takeWhile_cons_of_neg (by simp [hc2])]
        simp
      · rw [List.takeWhile_cons_of_pos (by simp [hc2])]
        simp

/-- Claim C8: for every status sequence whose first member of end_status
is t, the polling cell terminates with status t (the loop never exits on
a status outside end_status, as the second conjunct shows t is in the
set), and everything printed is exactly the statuses fetched inside the
loop, in order: the non-terminal statuses after the initial one,
followed by t itself. -/
theorem claim_C8 (statuses : List String) (t : String)
    (h : statuses.find? (fun s => decide (s ∈ end_status)) = some t) :
    statusPollCell statuses
      = some (t, ((statuses.takeWhile fun s => !decide (s ∈ end_status))
          ++ [t]).drop 1)
    ∧ t ∈ end_status := by
  cases statuses with
  | nil => simp [List.find?] at h
  | cons s rest =>
    refine ⟨?_, by simpa using List.find?_some h⟩
    rw [statusPollCell, pollLoop_spec rest s [] t h]
    simp

/-- Witness for claim_C8 at the concrete sequence with one intermediate
status: the loop prints READY and ends with it. -/
theorem claim_C8_witness :
    (["CREATING", "READY"].find? (fun s => decide (s ∈ end_status))
        = some "READY")
    ∧ (statusPollCell ["CREATING", "READY"]
        = some ("READY",
            (((["CREATING", "READY"] : List String).takeWhile
                fun s => !decide (s ∈ end_status)) ++ ["READY"]).drop 1)
       ∧ "READY" ∈ end_status) :=
  ⟨by decide, claim_C8 ["CREATING", "READY"] "READY" (by decide)⟩

/-- Outcomes of the external calls made by the browser-session lifecycle
cell, in the order the cell makes them: BrowserProfile(...) and
BrowserSession(...) construction, browser_session.start(),
ChatBedrockConverse(...) construction, the run_browser_task call, and
browser_session.close() in the finally block. some e means the call
raises e; none means it succeeds. -/
structure BrowserCellEnv where
  profileCtor : Option Exc
  sessionCtor : Option Exc
  sessionStart : Option Exc
  chatCtor : Option Exc
  task : Option Exc
  close : Option Exc
deriving Repr, DecidableEq

/-- Observable outcome of the browser-session lifecycle cell: whether the
finally block attempted browser_session.close(), and the exception
propagating out of the cell, if any. -/
structure BrowserCellResult where
  closeAttempted : Bool
  raised : Option Exc
deriving Repr, DecidableEq

/-- Faithful translation of the browser-session lifecycle cell:
browser_session starts as None; the try block constructs the profile,
constructs the session (binding browser_session), starts it, constructs
the chat model and runs the task, aborting at the first raising call;
the finally block tests browser_session for truthiness (a constructed
session object is truthy, None is falsy) and, when it is bound, awaits
close() inside a suppress(Exception) context, so the close outcome never
reaches the result; the try-block exception, if any, then propagates
since the cell has no except clause. -/
def browserSessionCell (env : BrowserCellEnv) : BrowserCellResult :=
  match env.profileCtor with
  | some e => { closeAttempted := false, raised := some e }
  | none =>
    match env.sessionCtor with
    | some e => { closeAttempted := false, raised := some e }
    | none =>
      { closeAttempted := true
        raised := env.sessionStart.or (env.chatCtor.or env.task) }

/-- Claim C10: close() is attempted exactly when the BrowserSession
constructor was reached and succeeded, whatever happened to the later
stages; and what the cell propagates is the first try-block exception,
never the close() outcome, which suppress(Exception) swallows. -/
theorem claim_C10 (env : BrowserCellEnv) :
    (browserSessionCell env).closeAttempted
      = (env.profileCtor.isNone && env.sessionCtor.isNone)
    ∧ (browserSessionCell env).raised
      = env.profileCtor.or (env.sessionCtor.or
          (env.sessionStart.or (env.chatCtor.or env.task))) := by
  obtain ⟨p, s, st, ch, tk, cl⟩ := env
  cases p <;> cases s <;> simp [browserSessionCell, Option.or]
